import Mathlib

/-!
Shallow embedding of `render-deploy` (src/main.rs), a CLI that resolves a
service by name, triggers a deploy, and optionally polls deploy status until
a terminal state or a timeout.  Machine integers are modelled as `Nat`
(durations are whole seconds, far from overflow), JSON bodies as an
inductive `Json` value, serde deserialization as explicit translation
functions, and process exit / panic as a `RunOutcome` value.
-/

namespace RenderDeploy

/-- JSON values, as needed by the payloads this tool parses. -/
inductive Json where
  | null : Json
  | str (s : String) : Json
  | arr (items : List Json) : Json
  | obj (fields : List (String × Json)) : Json

/-- First binding of `key` in an object's field list (serde reads fields by
name; extra fields are ignored by default). -/
def findField (fields : List (String × Json)) (key : String) : Option Json :=
  match fields with
  | [] => none
  | (k, v) :: rest => if k = key then some v else findField rest key

/-- Deserializing a required `String` field (serde: missing field or
non-string value is an error). -/
def parseStr (j : Option Json) : Except String String :=
  match j with
  | some (.str s) => .ok s
  | some _ => .error "invalid type: expected a string"
  | none => .error "missing field"

/-- Deserializing an `Option<String>` field: `null` and a missing field give
`none`; a string gives `some`; anything else is an error. -/
def parseOptStr (j : Option Json) : Except String (Option String) :=
  match j with
  | some .null => .ok none
  | some (.str s) => .ok (some s)
  | some _ => .error "invalid type: expected a string or null"
  | none => .ok none

/-- `DeployStatus` from src/main.rs lines 127-140: the closed status enum. -/
inductive DeployStatus where
  | Created
  | BuildInProgress
  | UpdateInProgress
  | Live
  | Deactivated
  | BuildFailed
  | UpdateFailed
  | Canceled
  | PreDeployInProgress
  | PreDeployFailed
deriving DecidableEq, Repr

/-- All ten `DeployStatus` values, in source declaration order. -/
def allStatuses : List DeployStatus :=
  [.Created, .BuildInProgress, .UpdateInProgress, .Live, .Deactivated,
   .BuildFailed, .UpdateFailed, .Canceled, .PreDeployInProgress, .PreDeployFailed]

/-- serde `rename_all = "snake_case"` deserialization of `DeployStatus`: the
ten recognized snake_case tokens map to their variants, anything else is an
unknown-variant error. -/
def statusFromString (s : String) : Except String DeployStatus :=
  if s = "created" then .ok .Created
  else if s = "build_in_progress" then .ok .BuildInProgress
  else if s = "update_in_progress" then .ok .UpdateInProgress
  else if s = "live" then .ok .Live
  else if s = "deactivated" then .ok .Deactivated
  else if s = "build_failed" then .ok .BuildFailed
  else if s = "update_failed" then .ok .UpdateFailed
  else if s = "canceled" then .ok .Canceled
  else if s = "pre_deploy_in_progress" then .ok .PreDeployInProgress
  else if s = "pre_deploy_failed" then .ok .PreDeployFailed
  else .error ("unknown variant " ++ s)

/-- The ten snake_case status tokens recognized by deserialization. -/
def statusTokens : List String :=
  ["created", "build_in_progress", "update_in_progress", "live", "deactivated",
   "build_failed", "update_failed", "canceled", "pre_deploy_in_progress",
   "pre_deploy_failed"]

/-- `deserialize_yes_no` from src/main.rs lines 36-47: maps the domain tokens
"yes"/"no" to booleans and rejects every other token as an unknown variant. -/
def deserialize_yes_no (s : String) : Except String Bool :=
  if s = "yes" then .ok true
  else if s = "no" then .ok false
  else .error ("unknown variant " ++ s ++ ", expected yes or no")

/-- `Service` from src/main.rs lines 49-63. -/
structure Service where
  id : String
  name : String
  branch : String
  dashboard_url : String
  auto_deploy : Bool
  repo : String
  updated_at : String
  created_at : String
deriving DecidableEq, Repr

/-- `CommitInfo` from src/main.rs lines 119-125. -/
structure CommitInfo where
  id : String
  message : String
  created_at : String
deriving DecidableEq, Repr

/-- `Deploy` from src/main.rs lines 160-171. -/
structure Deploy where
  id : String
  commit : CommitInfo
  status : DeployStatus
  created_at : String
  updated_at : String
  finished_at : Option String
deriving DecidableEq, Repr

/-- Derived serde deserialization of `Service` (field renames per the
`#[serde(rename = ...)]` attributes; `autoDeploy` through
`deserialize_yes_no`). -/
def serviceFromJson (j : Json) : Except String Service :=
  match j with
  | .obj fields => do
      let i ← parseStr (findField fields "id")
      let n ← parseStr (findField fields "name")
      let b ← parseStr (findField fields "branch")
      let d ← parseStr (findField fields "dashboardUrl")
      let a ← (match findField fields "autoDeploy" with
               | some (.str s) => deserialize_yes_no s
               | some _ => .error "invalid type: expected a string"
               | none => .error "missing field autoDeploy")
      let r ← parseStr (findField fields "repo")
      let u ← parseStr (findField fields "updatedAt")
      let c ← parseStr (findField fields "createdAt")
      .ok { id := i, name := n, branch := b, dashboard_url := d,
            auto_deploy := a, repo := r, updated_at := u, created_at := c }
  | _ => .error "invalid type: expected an object"

/-- Derived serde deserialization of `CommitInfo`. -/
def commitInfoFromJson (j : Json) : Except String CommitInfo :=
  match j with
  | .obj fields => do
      let i ← parseStr (findField fields "id")
      let m ← parseStr (findField fields "message")
      let c ← parseStr (findField fields "createdAt")
      .ok { id := i, message := m, created_at := c }
  | _ => .error "invalid type: expected an object"

/-- Derived serde deserialization of `Deploy`: nested `commit`, enum
`status`, renamed timestamps, and optional `finishedAt`. -/
def deployFromJson (j : Json) : Except String Deploy :=
  match j with
  | .obj fields => do
      let i ← parseStr (findField fields "id")
      let co ← (match findField fields "commit" with
                | some cj => commitInfoFromJson cj
                | none => .error "missing field commit")
      let st ← (match findField fields "status" with
                | some (.str s) => statusFromString s
                | some _ => .error "invalid type: expected a string"
                | none => .error "missing field status")
      let c ← parseStr (findField fields "createdAt")
      let u ← parseStr (findField fields "updatedAt")
      let f ← parseOptStr (findField fields "finishedAt")
      .ok { id := i, commit := co, status := st, created_at := c,
            updated_at := u, finished_at := f }
  | _ => .error "invalid type: expected an object"

/-- Canonical JSON payload for a `Deploy`, with the `finishedAt` value given
as a raw `Json` (either `.null` or a `.str`). -/
def deployJson (i cid cmsg ccreated : String) (statusStr : String)
    (created updated : String) (finished : Json) : Json :=
  .obj [("id", .str i),
        ("commit", .obj [("id", .str cid), ("message", .str cmsg),
                         ("createdAt", .str ccreated)]),
        ("status", .str statusStr),
        ("createdAt", .str created),
        ("updatedAt", .str updated),
        ("finishedAt", finished)]

/-- JSON encoding of an optional `finishedAt`: `none` is `null`. -/
def finishedJson : Option String → Json
  | none => .null
  | some s => .str s

/-- The three status classes the poll loop distinguishes. -/
inductive StatusClass where
  | inProgress
  | successTerminal
  | failureTerminal
deriving DecidableEq, Repr

/-- Status classification, extracted from the `match deploy.status` arms of
the poll loop in src/main.rs lines 378-402: `Live` breaks with a success
report, the four in-progress variants fall through to the next iteration,
and the five remaining variants break with a failure report. -/
def classify : DeployStatus → StatusClass
  | .Live => .successTerminal
  | .BuildInProgress => .inProgress
  | .UpdateInProgress => .inProgress
  | .PreDeployInProgress => .inProgress
  | .Created => .inProgress
  | .BuildFailed => .failureTerminal
  | .UpdateFailed => .failureTerminal
  | .Canceled => .failureTerminal
  | .Deactivated => .failureTerminal
  | .PreDeployFailed => .failureTerminal

/-- `Config` from src/main.rs lines 14-29 (the parsed CLI arguments);
`timeout` is in whole seconds, as produced by `parse_duration`. -/
structure Config where
  name : String
  commit : Option String
  wait : Bool
  api_key : String
  timeout : Nat
deriving DecidableEq, Repr

/-- How a run of the process ends: a normal `exit(code)`, or a Rust panic
(whose process exit code is 101, distinct from both 0 and 1). -/
inductive RunOutcome where
  | exited (code : Nat)
  | panicked (msg : String)
deriving DecidableEq, Repr

/-- The API requests this tool can issue, one constructor per endpoint used
in src/main.rs. -/
inductive ApiRequest where
  | listServices (name : String)
  | createDeploy (serviceId : String)
  | listDeploys (serviceId : String)
  | getDeploy (serviceId deployId : String)
deriving DecidableEq, Repr

/-- An HTTP request as built by this tool: method, URL, and optional body. -/
structure HttpRequest where
  method : String
  url : String
  body : Option String
deriving DecidableEq, Repr

/-- The request built by `trigger_deploy` (src/main.rs lines 175-180): a
POST to the service's deploys endpoint with no request body.  The function
receives the `Config` (and with it the optional commit argument) but never
reads it — the source carries a `todo` comment about posting `commitId`. -/
def trigger_request (service : Service) (_config : Config) : HttpRequest :=
  { method := "POST",
    url := "https://api.render.com/v1/services/" ++ service.id ++ "/deploys",
    body := none }

/-- An HTTP response as the tool observes it: whether the status was a
success, and the body, already split into "parses as this JSON value"
(`some j`) or "not valid JSON" (`none`). -/
structure HttpResponse where
  success : Bool
  body : Option Json

/-- Outcome of the poll loop of src/main.rs lines 368-404. -/
inductive PollOutcome where
  | timedOut
  | succeeded (finishedAt : Option String) (elapsedSecs : Nat)
  | failed (finishedAt : Option String)
  | aborted (r : RunOutcome)
  | diverged

/-- One fetch of the current deploy state, as the poll loop sees it: either
the parsed `Deploy`, or the `RunOutcome` with which `get_deploy` terminated
the process (HTTP error or parse error both `exit(1)` there). -/
def FetchFn : Type := Nat → Except RunOutcome Deploy

/-- The poll loop of src/main.rs lines 370-403, with the elapsed clock made
explicit: at the top of iteration `k` the elapsed time is `k * interval`
seconds (`k` sleeps of `interval` seconds have happened; the source's
interval is 5).  Each iteration checks `elapsed > timeout`, sleeps, issues
the `k`-th status fetch, and branches on the status class.  `fuel` bounds
the recursion; `diverged` marks fuel exhaustion and is unreachable for
positive `interval` and adequate fuel (proved below). -/
def pollLoop (sid did : String) (fetch : FetchFn) (interval timeout : Nat) :
    Nat → Nat → PollOutcome × List ApiRequest
  | fuel, k =>
    if k * interval > timeout then (.timedOut, [])
    else
      match fuel with
      | 0 => (.diverged, [])
      | fuel + 1 =>
        match fetch k with
        | .error r => (.aborted r, [.getDeploy sid did])
        | .ok deploy =>
          match classify deploy.status with
          | .successTerminal =>
              (.succeeded deploy.finished_at ((k + 1) * interval), [.getDeploy sid did])
          | .failureTerminal =>
              (.failed deploy.finished_at, [.getDeploy sid did])
          | .inProgress =>
              let rest := pollLoop sid did fetch interval timeout fuel (k + 1)
              (rest.1, .getDeploy sid did :: rest.2)

/-- Entry into the poll loop: elapsed clock at 0, fuel large enough that
`diverged` cannot occur when `interval > 0`. -/
def poll (sid did : String) (fetch : FetchFn) (interval timeout : Nat) :
    PollOutcome × List ApiRequest :=
  pollLoop sid did fetch interval timeout (timeout / interval + 2) 0

/-- A `{cursor, service}` wrapper (`ListServiceResponse`, src/main.rs
lines 65-69). -/
def listServiceRespFromJson (j : Json) : Except String (String × Service) :=
  match j with
  | .obj fields => do
      let c ← parseStr (findField fields "cursor")
      let s ← (match findField fields "service" with
               | some sj => serviceFromJson sj
               | none => .error "missing field service")
      .ok (c, s)
  | _ => .error "invalid type: expected an object"

/-- A `{cursor, deploy}` wrapper (`ListDeploysResponse`, src/main.rs
lines 238-242). -/
def listDeploysRespFromJson (j : Json) : Except String (String × Deploy) :=
  match j with
  | .obj fields => do
      let c ← parseStr (findField fields "cursor")
      let d ← (match findField fields "deploy" with
               | some dj => deployFromJson dj
               | none => .error "missing field deploy")
      .ok (c, d)
  | _ => .error "invalid type: expected an object"

/-- serde deserialization of a JSON array element-wise. -/
def listFromJson {α : Type} (fromJson : Json → Except String α) (j : Json) :
    Except String (List α) :=
  match j with
  | .arr items => items.mapM fromJson
  | _ => .error "invalid type: expected a sequence"

/-- `list_service` (src/main.rs lines 92-117) applied to the response it
receives: non-success HTTP status prints and `exit(1)`; an unparsable body
prints and `exit(1)`; otherwise the first wrapper's service, if any, is
returned (`None` means no service of that name exists). -/
def list_service (resp : HttpResponse) : Except RunOutcome (Option Service) :=
  if !resp.success then .error (.exited 1)
  else
    match resp.body with
    | none => .error (.exited 1)
    | some j =>
      match listFromJson listServiceRespFromJson j with
      | .error _ => .error (.exited 1)
      | .ok services => .ok ((services.head?).map (fun p => p.2))

/-- `latest_deploy` (src/main.rs lines 244-272) applied to its response:
same error handling as `list_service`, yielding the first deploy wrapper. -/
def latest_deploy (resp : HttpResponse) : Except RunOutcome (Option Deploy) :=
  if !resp.success then .error (.exited 1)
  else
    match resp.body with
    | none => .error (.exited 1)
    | some j =>
      match listFromJson listDeploysRespFromJson j with
      | .error _ => .error (.exited 1)
      | .ok deploys => .ok ((deploys.head?).map (fun p => p.2))

/-- `get_deploy` (src/main.rs lines 274-303) applied to its response:
non-success HTTP status or a body that fails to parse as a `Deploy` both
print and `exit(1)`; otherwise the deploy is returned. -/
def get_deploy (resp : HttpResponse) : Except RunOutcome Deploy :=
  if !resp.success then .error (.exited 1)
  else
    match resp.body with
    | none => .error (.exited 1)
    | some j =>
      match deployFromJson j with
      | .error _ => .error (.exited 1)
      | .ok deploy => .ok deploy

/-- `trigger_deploy` (src/main.rs lines 173-199) applied to its response:
non-success HTTP status prints and `exit(1)`, but a body that fails to
parse is returned to the caller as `Result::Err` with a diagnostic — the
inner `Except String Deploy` is the Rust `Result<Deploy, String>`. -/
def trigger_deploy (resp : HttpResponse) : Except RunOutcome (Except String Deploy) :=
  if !resp.success then .error (.exited 1)
  else
    match resp.body with
    | none => .ok (.error "Unable to parse json")
    | some j =>
      match deployFromJson j with
      | .error e => .ok (.error ("Unable to parse json " ++ e))
      | .ok deploy => .ok (.ok deploy)

/-- The environment of one run: the responses the remote platform gives to
each request `main` issues, in particular the response to the `k`-th
status fetch of the poll loop. -/
structure Env where
  listServicesResp : HttpResponse
  listDeploysResp : HttpResponse
  createDeployResp : HttpResponse
  getDeployResp : Nat → HttpResponse

/-- How the code following the poll loop maps its outcome to a process
outcome (src/main.rs lines 371-405): the timeout branch is `exit(1)`; both
`break`s (success and failure reports) fall through to the final `exit(0)`;
an abort inside `get_deploy` already carries its own outcome.  `diverged`
cannot occur for the source's interval of 5 (proved below); it is mapped to
a panic marker so no claim can silently rely on it. -/
def exitAfterPoll : PollOutcome → RunOutcome
  | .timedOut => .exited 1
  | .succeeded _ _ => .exited 0
  | .failed _ => .exited 0
  | .aborted r => r
  | .diverged => .panicked "poll loop fuel exhausted"

/-- `main` (src/main.rs lines 305-406) as a function of the configuration
and the environment of responses: resolve the service (absence prints the
not-found message and exits 1), fetch the previous deploy, trigger the
deploy (`unwrap` of an `Err` panics), then, when `wait` is set, run the
poll loop with the source's fixed 5-second interval and exit accordingly;
without `wait`, `exit(0)` immediately after reporting. -/
def runMain (config : Config) (env : Env) : RunOutcome :=
  match list_service env.listServicesResp with
  | .error out => out
  | .ok none => .exited 1
  | .ok (some service) =>
    match latest_deploy env.listDeploysResp with
    | .error out => out
    | .ok _previous =>
      match trigger_deploy env.createDeployResp with
      | .error out => out
      | .ok (.error msg) => .panicked msg
      | .ok (.ok deploy) =>
        if config.wait then
          exitAfterPoll
            (poll service.id deploy.id
              (fun k => get_deploy (env.getDeployResp k)) 5 config.timeout).1
        else .exited 0

/-! Helper lemmas about the poll loop. -/

/-- Unfolding one iteration of the poll loop when fuel remains. -/
lemma pollLoop_step (sid did : String) (fetch : FetchFn) (i t fuel k : Nat) :
    pollLoop sid did fetch i t (fuel + 1) k =
      if k * i > t then (.timedOut, [])
      else
        match fetch k with
        | .error r => (.aborted r, [.getDeploy sid did])
        | .ok deploy =>
          match classify deploy.status with
          | .successTerminal =>
              (.succeeded deploy.finished_at ((k + 1) * i), [.getDeploy sid did])
          | .failureTerminal =>
              (.failed deploy.finished_at, [.getDeploy sid did])
          | .inProgress =>
              ((pollLoop sid did fetch i t fuel (k + 1)).1,
                .getDeploy sid did :: (pollLoop sid did fetch i t fuel (k + 1)).2) := by
  rw [pollLoop]

/-- With fuel exhausted, the loop reports `timedOut` when the timeout check
fires and the fuel marker otherwise. -/
lemma pollLoop_zero (sid did : String) (fetch : FetchFn) (i t k : Nat) :
    pollLoop sid did fetch i t 0 k =
      if k * i > t then (.timedOut, []) else (.diverged, []) := by
  rw [pollLoop]

/-- On an everywhere-in-progress fetch sequence, the loop with enough fuel
times out, having issued one status fetch per iteration until the first
check with `k * i > t`. -/
lemma pollLoop_inProgress_result (sid did : String) (fetch : FetchFn) (i t : Nat)
    (hi : 0 < i)
    (hok : ∀ k, ∃ d, fetch k = .ok d ∧ classify d.status = .inProgress) :
    ∀ fuel k, t / i + 1 < fuel + k →
      pollLoop sid did fetch i t fuel k
        = (.timedOut, List.replicate (t / i + 1 - k) (.getDeploy sid did)) := by
  intro fuel
  induction fuel with
  | zero =>
      intro k hk
      have hdiv : t / i < k := by omega
      have hti : t < k * i := by
        have := (Nat.div_lt_iff_lt_mul hi).mp hdiv
        exact this
      rw [pollLoop_zero, if_pos hti]
      have : t / i + 1 - k = 0 := by omega
      rw [this, List.replicate_zero]
  | succ fuel ih =>
      intro k hk
      by_cases hti : k * i > t
      · have hdiv : t / i < k := (Nat.div_lt_iff_lt_mul hi).mpr hti
        rw [pollLoop_step, if_pos hti]
        have : t / i + 1 - k = 0 := by omega
        rw [this, List.replicate_zero]
      · have hle : k ≤ t / i := by
          have : k * i ≤ t := by omega
          exact (Nat.le_div_iff_mul_le hi).mpr this
        obtain ⟨d, hd, hcls⟩ := hok k
        rw [pollLoop_step, if_neg hti, hd]
        simp only [hcls]
        rw [ih (k + 1) (by omega)]
        have : t / i + 1 - k = (t / i + 1 - (k + 1)) + 1 := by omega
        rw [this, List.replicate_succ]

/-! Sample values, used by witnesses.  The deploy mirrors the payload of the
unit test in src/main.rs lines 205-227. -/

/-- The commit of the unit test's sample payload. -/
def exCommit : CommitInfo :=
  { id := "b2be9cf9e3188d00f58ef18a5904528993faeaa2",
    message := "render uses sigterm and disable aws healthcheck",
    created_at := "2024-10-11T20:02:45Z" }

/-- The deploy of the unit test's sample payload (status `build_in_progress`,
`finishedAt: null`). -/
def exDeploy : Deploy :=
  { id := "dep-cs67ufi3esus73b74a70", commit := exCommit,
    status := .BuildInProgress, created_at := "2024-10-14T02:17:35.868638Z",
    updated_at := "2024-10-14T02:17:35.868638Z", finished_at := none }

/-- A deploy that has gone live. -/
def exLiveDeploy : Deploy :=
  { exDeploy with status := .Live, finished_at := some "2024-10-14T02:20:00Z" }

/-- A deploy that was canceled (a failure-terminal status). -/
def exCanceledDeploy : Deploy :=
  { exDeploy with status := .Canceled, finished_at := some "2024-10-14T02:21:00Z" }

/-! The claims. -/

/-- Claim C3: the status classification is total and disjoint.  Every one of
the ten `DeployStatus` values is enumerated, belongs to exactly one of the
three classes, and the classes are exactly in-progress = {Created,
BuildInProgress, UpdateInProgress, PreDeployInProgress}, success-terminal =
{Live}, failure-terminal = {Deactivated, BuildFailed, UpdateFailed,
Canceled, PreDeployFailed}.  The poll loop's transition is determined by
the class: `pollLoop` branches on `classify` alone (in-progress continues,
success-terminal stops accepting, failure-terminal stops rejecting), which
is the grouping of the source's match arms. -/
theorem C3_classify_partition :
    (∀ s : DeployStatus, s ∈ allStatuses) ∧
    (∀ s : DeployStatus,
      classify s = .inProgress ∨ classify s = .successTerminal ∨
        classify s = .failureTerminal) ∧
    (∀ s : DeployStatus,
      (classify s = .inProgress ↔
        s ∈ ([.Created, .BuildInProgress, .UpdateInProgress,
              .PreDeployInProgress] : List DeployStatus)) ∧
      (classify s = .successTerminal ↔ s ∈ ([.Live] : List DeployStatus)) ∧
      (classify s = .failureTerminal ↔
        s ∈ ([.Deactivated, .BuildFailed, .UpdateFailed, .Canceled,
              .PreDeployFailed] : List DeployStatus))) := by
  refine ⟨?_, ?_, ?_⟩ <;> intro s <;> cases s <;> decide

/-- Claim C6: `deserialize_yes_no` maps "yes" to `true` and "no" to `false`,
and fails with an unknown-variant error on every other token; the `Service`
deserializer feeds the `autoDeploy` field through it, so a service payload
inherits exactly this behavior and never defaults to `false`. -/
theorem C6_yes_no (i n b d r u c t : String) (v : Bool)
    (h : deserialize_yes_no t = .ok v) :
    deserialize_yes_no "yes" = .ok true ∧
    deserialize_yes_no "no" = .ok false ∧
    (∀ s : String, s ≠ "yes" → s ≠ "no" →
      deserialize_yes_no s = .error ("unknown variant " ++ s ++ ", expected yes or no")) ∧
    serviceFromJson (.obj [("id", .str i), ("name", .str n), ("branch", .str b),
        ("dashboardUrl", .str d), ("autoDeploy", .str t), ("repo", .str r),
        ("updatedAt", .str u), ("createdAt", .str c)])
      = .ok { id := i, name := n, branch := b, dashboard_url := d,
              auto_deploy := v, repo := r, updated_at := u, created_at := c } := by
  refine ⟨rfl, rfl, ?_, ?_⟩
  · intro s hy hn
    rw [deserialize_yes_no, if_neg hy, if_neg hn]
  · simp [serviceFromJson, findField, parseStr, h]
    rfl

/-- Claim C10: the deploy-trigger HTTP request is independent of the
optional commit argument — two configurations differing only in `commit`
produce the identical request, a POST with no body (hence no `commitId`
field), so the commit argument can influence only printed messages. -/
theorem C10_commit_ignored (service : Service) (config : Config)
    (c1 c2 : Option String) :
    trigger_request service { config with commit := c1 }
      = trigger_request service { config with commit := c2 } ∧
    (trigger_request service config).body = none ∧
    (trigger_request service config).method = "POST" :=
  ⟨rfl, rfl, rfl⟩

/-- Witness for C6 at concrete inputs: the token "yes" yields `true`, the
token "maybe" is rejected with an unknown-variant error, and a concrete
service payload with `autoDeploy: "yes"` deserializes with the flag set. -/
theorem C6_yes_no_witness :
    deserialize_yes_no "yes" = .ok true ∧
    deserialize_yes_no "maybe"
      = .error ("unknown variant " ++ "maybe" ++ ", expected yes or no") ∧
    serviceFromJson (.obj [("id", .str "srv-1"), ("name", .str "web"),
        ("branch", .str "main"), ("dashboardUrl", .str "https://dash"),
        ("autoDeploy", .str "yes"), ("repo", .str "https://repo"),
        ("updatedAt", .str "2024"), ("createdAt", .str "2023")])
      = .ok { id := "srv-1", name := "web", branch := "main",
              dashboard_url := "https://dash", auto_deploy := true,
              repo := "https://repo", updated_at := "2024", created_at := "2023" } := by
  obtain ⟨h1, _, h3, h4⟩ :=
    C6_yes_no "srv-1" "web" "main" "https://dash" "https://repo" "2024" "2023"
      "yes" true rfl
  exact ⟨h1, h3 "maybe" (by decide) (by decide), h4⟩

/-- Claim C4: a valid JSON deploy payload whose status is a recognized
snake_case token deserializes successfully, reconstructing exactly the
payload's `id`, `commit.id`, `status`, and `finishedAt` (along with the
other fields), with `finishedAt: null` becoming the absent value — never an
empty string and never an error. -/
theorem C4_deploy_roundtrip (i cid cmsg ccreated statusStr created updated : String)
    (st : DeployStatus) (fin : Option String)
    (h : statusFromString statusStr = .ok st) :
    deployFromJson (deployJson i cid cmsg ccreated statusStr created updated
        (finishedJson fin))
      = .ok { id := i, commit := { id := cid, message := cmsg, created_at := ccreated },
              status := st, created_at := created, updated_at := updated,
              finished_at := fin } := by
  cases fin <;>
    simp [deployFromJson, deployJson, commitInfoFromJson, findField, parseStr,
      parseOptStr, finishedJson, h] <;>
    rfl

/-- Witness for C4 at the unit test's sample payload: status
"build_in_progress" yields `BuildInProgress` and `finishedAt: null` yields
the absent value. -/
theorem C4_deploy_roundtrip_witness :
    statusFromString "build_in_progress" = .ok .BuildInProgress ∧
    deployFromJson (deployJson "dep-cs67ufi3esus73b74a70"
        "b2be9cf9e3188d00f58ef18a5904528993faeaa2"
        "render uses sigterm and disable aws healthcheck" "2024-10-11T20:02:45Z"
        "build_in_progress" "2024-10-14T02:17:35.868638Z"
        "2024-10-14T02:17:35.868638Z" (finishedJson none))
      = .ok exDeploy :=
  ⟨rfl,
    C4_deploy_roundtrip "dep-cs67ufi3esus73b74a70"
      "b2be9cf9e3188d00f58ef18a5904528993faeaa2"
      "render uses sigterm and disable aws healthcheck" "2024-10-11T20:02:45Z"
      "build_in_progress" "2024-10-14T02:17:35.868638Z"
      "2024-10-14T02:17:35.868638Z" .BuildInProgress none rfl⟩

/-- Claim C5: a deploy payload whose status string is not among the ten
recognized tokens fails deserialization with an unknown-variant error — the
status is never silently defaulted to any enum value. -/
theorem C5_unknown_status (i cid cmsg ccreated s created updated : String)
    (fin : Option String) (h : s ∉ statusTokens) :
    deployFromJson (deployJson i cid cmsg ccreated s created updated
        (finishedJson fin))
      = .error ("unknown variant " ++ s) := by
  simp only [statusTokens, List.mem_cons, List.not_mem_nil, or_false, not_or] at h
  obtain ⟨h1, h2, h3, h4, h5, h6, h7, h8, h9, h10⟩ := h
  have hst : statusFromString s = .error ("unknown variant " ++ s) := by
    rw [statusFromString, if_neg h1, if_neg h2, if_neg h3, if_neg h4, if_neg h5,
      if_neg h6, if_neg h7, if_neg h8, if_neg h9, if_neg h10]
  simp [deployFromJson, deployJson, commitInfoFromJson, findField, parseStr, hst]
  rfl

/-- Witness for C5 at the token "suspended" (a status the platform knows
but this tool does not): deserialization is an error. -/
theorem C5_unknown_status_witness :
    "suspended" ∉ statusTokens ∧
    deployFromJson (deployJson "d-1" "c-1" "msg" "t0" "suspended" "t1" "t2"
        (finishedJson none))
      = .error ("unknown variant " ++ "suspended") :=
  ⟨by decide, C5_unknown_status "d-1" "c-1" "msg" "t0" "suspended" "t1" "t2" none
    (by decide)⟩

/-- Claim C1: when the first two status fetches return `BuildInProgress`
and the third returns `Live` (and the timeout allows at least two full poll
cycles), the poller issues exactly three fetches and stops in the
success-terminal state, reporting the deploy's `finishedAt` and an elapsed
time of three poll intervals, which is at least two poll intervals. -/
theorem C1_three_fetches_then_live (sid did : String) (fetch : FetchFn)
    (d0 d1 d2 : Deploy) (interval timeout : Nat)
    (h0 : fetch 0 = .ok d0) (h1 : fetch 1 = .ok d1) (h2 : fetch 2 = .ok d2)
    (hs0 : d0.status = .BuildInProgress) (hs1 : d1.status = .BuildInProgress)
    (hs2 : d2.status = .Live) (hi : 0 < interval) (ht : 2 * interval ≤ timeout) :
    poll sid did fetch interval timeout
      = (.succeeded d2.finished_at (3 * interval),
         [.getDeploy sid did, .getDeploy sid did, .getDeploy sid did])
    ∧ 2 * interval ≤ 3 * interval := by
  have hdiv : 2 ≤ timeout / interval := (Nat.le_div_iff_mul_le hi).mpr ht
  have hfuel : timeout / interval + 2 = timeout / interval - 2 + 1 + 1 + 1 + 1 := by
    omega
  constructor
  · rw [poll, hfuel]
    rw [pollLoop_step, if_neg (by omega : ¬ 0 * interval > timeout), h0]
    simp only [hs0, classify]
    rw [pollLoop_step, if_neg (by omega : ¬ (0 + 1) * interval > timeout), h1]
    simp only [hs1, classify]
    rw [pollLoop_step, if_neg (by omega : ¬ (0 + 1 + 1) * interval > timeout), h2]
    simp only [hs2, classify]
  · omega

/-- Witness for C1: a stub fetch sequence [BuildInProgress, BuildInProgress,
Live] at interval 5 with timeout 600 ends in success after three fetches
with elapsed time 15 seconds. -/
theorem C1_three_fetches_then_live_witness :
    poll "srv-1" "dep-1" (fun k => .ok (if k < 2 then exDeploy else exLiveDeploy)) 5 600
      = (.succeeded exLiveDeploy.finished_at (3 * 5),
         [.getDeploy "srv-1" "dep-1", .getDeploy "srv-1" "dep-1",
          .getDeploy "srv-1" "dep-1"])
    ∧ 2 * 5 ≤ 3 * 5 :=
  C1_three_fetches_then_live "srv-1" "dep-1" _ exDeploy exDeploy exLiveDeploy 5 600
    rfl rfl rfl rfl rfl rfl (by decide) (by decide)

/-- Claim C2: on a fetch sequence that never reaches a terminal status, and
for any finite timeout, the poller stops reporting the timeout condition
after finitely many fetches — exactly floor(timeout/interval) + 1, which is
at most ceil(timeout/interval) + 1; with a timeout shorter than one poll
interval this is a single fetch.  Every request the poller issues is a
status fetch for the given deploy: it never cancels the remote deploy. -/
theorem C2_timeout_bounded_fetches (sid did : String) (fetch : FetchFn)
    (interval timeout : Nat) (hi : 0 < interval)
    (hok : ∀ k, ∃ d, fetch k = .ok d ∧ classify d.status = .inProgress) :
    (poll sid did fetch interval timeout).1 = .timedOut ∧
    (poll sid did fetch interval timeout).2.length = timeout / interval + 1 ∧
    (poll sid did fetch interval timeout).2.length
      ≤ (timeout + interval - 1) / interval + 1 ∧
    (timeout < interval → (poll sid did fetch interval timeout).2.length = 1) ∧
    (∀ r ∈ (poll sid did fetch interval timeout).2, r = .getDeploy sid did) := by
  have hrun := pollLoop_inProgress_result sid did fetch interval timeout hi hok
    (timeout / interval + 2) 0 (by omega)
  rw [poll, hrun]
  refine ⟨rfl, by simp, ?_, ?_, ?_⟩
  · simp only [List.length_replicate, Nat.sub_zero]
    exact Nat.add_le_add_right (Nat.div_le_div_right (by omega)) 1
  · intro hlt
    simp only [List.length_replicate, Nat.sub_zero]
    rw [Nat.div_eq_of_lt hlt]
  · intro r hr
    exact List.eq_of_mem_replicate hr

/-- Witness for C2: an always-in-progress stub sequence at interval 5 with
timeout 3 (shorter than one poll cycle) times out after a single fetch. -/
theorem C2_timeout_bounded_fetches_witness :
    (poll "srv-1" "dep-1" (fun _ => .ok exDeploy) 5 3).1 = .timedOut ∧
    (poll "srv-1" "dep-1" (fun _ => .ok exDeploy) 5 3).2.length = 3 / 5 + 1 ∧
    (poll "srv-1" "dep-1" (fun _ => .ok exDeploy) 5 3).2.length
      ≤ (3 + 5 - 1) / 5 + 1 ∧
    (3 < 5 → (poll "srv-1" "dep-1" (fun _ => .ok exDeploy) 5 3).2.length = 1) ∧
    (∀ r ∈ (poll "srv-1" "dep-1" (fun _ => .ok exDeploy) 5 3).2,
      r = .getDeploy "srv-1" "dep-1") :=
  C2_timeout_bounded_fetches "srv-1" "dep-1" (fun _ => .ok exDeploy) 5 3
    (by decide) (fun _ => ⟨exDeploy, rfl, rfl⟩)

/-- Claim C9: when a status fetch returns a failure-terminal status the
poll loop stops rejecting, and the code after the loop maps both the
failure report and the success report to `exit(0)` — a failed deploy is
indistinguishable from a live one by exit status. -/
theorem C9_failure_exits_zero (sid did : String) (fetch : FetchFn) (d : Deploy)
    (interval timeout : Nat)
    (h0 : fetch 0 = .ok d) (hcls : classify d.status = .failureTerminal) :
    (poll sid did fetch interval timeout).1 = .failed d.finished_at ∧
    exitAfterPoll (.failed d.finished_at) = .exited 0 ∧
    (∀ (fin : Option String) (e : Nat),
      exitAfterPoll (.succeeded fin e) = .exited 0) := by
  refine ⟨?_, rfl, fun _ _ => rfl⟩
  have hfuel : timeout / interval + 2 = timeout / interval + 1 + 1 := by omega
  rw [poll, hfuel, pollLoop_step, if_neg (by omega : ¬ 0 * interval > timeout), h0]
  simp only [hcls]

/-- Witness for C9: a first fetch returning a canceled deploy makes the
poller stop with a failure report, and the process exit code is 0, as for a
live deploy. -/
theorem C9_failure_exits_zero_witness :
    (poll "srv-1" "dep-1" (fun _ => .ok exCanceledDeploy) 5 600).1
      = .failed exCanceledDeploy.finished_at ∧
    exitAfterPoll (.failed exCanceledDeploy.finished_at) = .exited 0 ∧
    (∀ (fin : Option String) (e : Nat),
      exitAfterPoll (.succeeded fin e) = .exited 0) :=
  C9_failure_exits_zero "srv-1" "dep-1" (fun _ => .ok exCanceledDeploy)
    exCanceledDeploy 5 600 rfl rfl

/-- A service payload as the lookup endpoint returns it, wrapped in a
`{cursor, service}` element. -/
def exServiceJson : Json :=
  .obj [("id", .str "srv-1"), ("name", .str "web"), ("branch", .str "main"),
        ("dashboardUrl", .str "https://dash"), ("autoDeploy", .str "no"),
        ("repo", .str "https://repo"), ("updatedAt", .str "2024"),
        ("createdAt", .str "2023")]

/-- A successful one-element service lookup response body. -/
def exListServicesBody : Json :=
  .arr [.obj [("cursor", .str "cur-1"), ("service", exServiceJson)]]

/-- A configuration that does not wait for the deploy. -/
def cfgNoWait : Config :=
  { name := "web", commit := none, wait := false, api_key := "key", timeout := 600 }

/-- An environment where everything succeeds until the deploy-trigger
response, whose body is not parsable JSON. -/
def envTriggerParseFailure : Env :=
  { listServicesResp := { success := true, body := some exListServicesBody },
    listDeploysResp := { success := true, body := some (.arr []) },
    createDeployResp := { success := true, body := none },
    getDeployResp := fun _ => { success := true, body := none } }

/-- Claim C7 (refuted on the code): the claim says every JSON parse failure
ends the run with exit code 1, but a parse failure of the deploy-trigger
response body makes `main` call `.unwrap()` on the `Err` that
`trigger_deploy` returns (src/main.rs line 357), which panics — a Rust
panic terminates the process with exit code 101, neither 1 nor 0.  This
theorem evaluates the run at such an input: service lookup and previous-
deploy fetch succeed, the trigger response has a success HTTP status and an
unparsable body, and the run panics instead of exiting 1. -/
theorem C7_trigger_parse_failure_panics :
    runMain cfgNoWait envTriggerParseFailure = .panicked "Unable to parse json" ∧
    runMain cfgNoWait envTriggerParseFailure ≠ .exited 1 ∧
    runMain cfgNoWait envTriggerParseFailure ≠ .exited 0 :=
  ⟨rfl, by decide, by decide⟩

/-- Claim C8: a successful lookup response whose body parses as the empty
list makes the resolver yield the not-found outcome (`None`, no crash),
after which the run prints the not-found message and exits with code 1. -/
theorem C8_empty_list_not_found (config : Config) (env : Env)
    (h : env.listServicesResp = { success := true, body := some (.arr []) }) :
    list_service env.listServicesResp = .ok none ∧
    runMain config env = .exited 1 := by
  have hls : list_service env.listServicesResp = .ok none := by rw [h]; rfl
  refine ⟨hls, ?_⟩
  simp only [runMain, hls]

/-- An environment whose service lookup returns the empty list; the other
responses are never reached. -/
def envNotFound : Env :=
  { listServicesResp := { success := true, body := some (.arr []) },
    listDeploysResp := { success := false, body := none },
    createDeployResp := { success := false, body := none },
    getDeployResp := fun _ => { success := false, body := none } }

/-- Witness for C8 at a concrete environment: the empty-list lookup yields
not-found and the run exits 1. -/
theorem C8_empty_list_not_found_witness :
    list_service envNotFound.listServicesResp = .ok none ∧
    runMain cfgNoWait envNotFound = .exited 1 :=
  C8_empty_list_not_found cfgNoWait envNotFound rfl

end RenderDeploy
